import Mathlib

/-!
Verification development for the showmehow repository (src/showmehow/showmehow.py
and src/showmehow/remindmehow.py).

The Python code is shallowly embedded: pure helpers become Lean functions,
dictionary lookups and raised exceptions become `Except PyExc`, and the
stateful parts of `PracticeTaskStateMachine` become explicit state passing
over an `SMState` record together with an ordered trace of observable
actions (rendering, external-event dispatch, prompts, loop shutdown).

Python string primitives (`str.strip`, `str.split`, `str.startswith`,
`int(...)`, `textwrap.wrap`) are modelled by structurally recursive
functions over `String.data`, so every definition evaluates inside the
kernel.

Two pieces of the repository are imported by src/showmehow/remindmehow.py
(`practice_task`, `ReloadMonitor`) or described only in the specification
(the `choice` input modality) but are not defined anywhere under src/.
Those are modelled from the specification text and are marked
`Modelled from the spec:` in their doc comments.
-/

/-- Python exceptions that the embedded code can raise.  `runtimeError`
carries the offending response-type tag: in the source the RuntimeError
message is the fixed literal "Don..t know how to handle response type "
followed by that tag, so recording the tag records the whole message. -/
inductive PyExc
  | keyError
  | indexError
  | nameError (name : String)
  | valueError
  | runtimeError (typeTag : String)
  | assertionError
deriving DecidableEq

/-- Outcome of `coding_game_service.call_external_event_sync`.  Per the
service interface, a failing call raises `GLib.Error` carrying an error
domain and an integer code; `err` records those. -/
inductive CallOutcome
  | ok
  | err (domain : String) (code : Int)
deriving DecidableEq

/-! ## Python string primitives, modelled over `List Char` -/

/-- Python whitespace test (space, tab, newline, carriage return). -/
def py_isspace (c : Char) : Bool :=
  c.toNat = 32 || c.toNat = 9 || c.toNat = 10 || c.toNat = 13

/-- Python `str.strip()`: drop leading and trailing whitespace. -/
def py_strip (s : String) : String :=
  ⟨((s.data.dropWhile py_isspace).reverse.dropWhile py_isspace).reverse⟩

/-- `startsWithChars pre l` holds when `pre` is an initial segment of `l`. -/
def startsWithChars : List Char → List Char → Bool
  | [], _ => true
  | _ :: _, [] => false
  | p :: ps, c :: cs => p = c && startsWithChars ps cs

/-- Python `s.startswith(pre)`. -/
def py_startswith (s pre : String) : Bool :=
  startsWithChars pre.data s.data

/-- Helper for `py_split_double_newline`: split a character list on
non-overlapping occurrences of the two-character separator newline-newline,
scanning left to right; `acc` is the current piece, reversed. -/
def splitNl2 : List Char → List Char → List (List Char)
  | [], acc => [acc.reverse]
  | '\n' :: '\n' :: cs, acc => acc.reverse :: splitNl2 cs []
  | c :: cs, acc => splitNl2 cs (c :: acc)

/-- Python `value.split("\n\n")`. -/
def py_split_double_newline (s : String) : List String :=
  (splitNl2 s.data []).map String.mk

/-- Helper for `splitWords`: accumulate maximal non-whitespace runs. -/
def wordsAux : List Char → List Char → List (List Char)
  | [], acc => if acc = [] then [] else [acc.reverse]
  | c :: cs, acc =>
    if py_isspace c then
      if acc = [] then wordsAux cs [] else acc.reverse :: wordsAux cs []
    else wordsAux cs (c :: acc)

/-- Words of a text: maximal runs of non-whitespace characters.  Models the
chunking performed by Python textwrap with its default whitespace
collapsing (without the hyphen and long-word splitting refinements, which
no theorem below depends on). -/
def splitWords (s : String) : List String :=
  (wordsAux s.data []).map String.mk

/-- Decimal digit value of a character, if any. -/
def digitVal (c : Char) : Option Nat :=
  if 48 ≤ c.toNat ∧ c.toNat ≤ 57 then some (c.toNat - 48) else none

/-- Parse a non-empty run of decimal digits; `acc` is `none` until the
first digit has been seen, so the empty string is rejected. -/
def parseDigits : List Char → Option Nat → Option Nat
  | [], acc => acc
  | c :: cs, acc =>
    match digitVal c, acc with
    | some d, some a => parseDigits cs (some (a * 10 + d))
    | some d, none => parseDigits cs (some d)
    | none, _ => none

/-- Python `int(raw)`: surrounding whitespace is ignored, an optional
sign precedes a non-empty digit run; anything else raises ValueError,
modelled as `none`. -/
def py_int (s : String) : Option Int :=
  match (py_strip s).data with
  | '-' :: rest => (parseDigits rest none).map (fun n => -(n : Int))
  | '+' :: rest => (parseDigits rest none).map (fun n => (n : Int))
  | l => (parseDigits l none).map (fun n => (n : Int))

/-! ## Response rendering (showmehow.py lines 78-135) -/

/-- Greedy fill: `cur` is the line under construction; each further word is
appended (with a single separating space) when the result fits in `width`,
otherwise the line is emitted and a new one started. -/
def wrapFill (width : Nat) (cur : String) : List String → List String
  | [] => [cur]
  | w :: ws =>
    if cur.length + 1 + w.length ≤ width then wrapFill width (cur ++ " " ++ w) ws
    else cur :: wrapFill width w ws

/-- Model of Python `textwrap.wrap(text, width)`: the empty word list
yields `[]` (exactly as `textwrap.wrap` returns `[]` on whitespace-only
input), otherwise greedy filling. -/
def textwrap_wrap (width : Nat) (text : String) : List String :=
  match splitWords text with
  | [] => []
  | w :: ws => wrapFill width w ws

/-- showmehow.py lines 78-85, `show_wrapped_response`: split the value on
blank-line boundaries ("\n\n"), wrap each paragraph at width 68, and print
every resulting line.  The returned list is the exact sequence of lines
printed, in order. -/
def show_wrapped_response (value : String) : List String :=
  (py_split_double_newline value).flatMap (textwrap_wrap 68)

/-- A response payload as a Python dict: the "type" and "value" entries may
each be present or absent. -/
structure Response where
  type? : Option String
  value? : Option String
deriving DecidableEq

/-- The keys of the `_RESPONSE_ACTIONS` dispatch table
(showmehow.py lines 121-126). -/
def RESPONSE_ACTIONS : List String := ["raw", "scrolled", "scroll_wait", "wrapped"]

/-- The body of the `try` block of `show_response` (line 132):
`_RESPONSE_ACTIONS[response["type"]](response["value"])`.  Python
evaluates `response["type"]` first (KeyError when absent), then the
dispatch-table lookup (KeyError when the tag is unknown), then
`response["value"]` (KeyError when absent); on success the renderer runs,
which does not raise. -/
def show_response_try (r : Response) : Except PyExc Unit :=
  match r.type? with
  | none => .error .keyError
  | some t =>
    if t ∈ RESPONSE_ACTIONS then
      match r.value? with
      | none => .error .keyError
      | some _ => .ok ()
    else .error .keyError

/-- showmehow.py lines 129-135, `show_response`: the `except KeyError`
handler re-evaluates `response["type"]` while building the RuntimeError
message, so when the "type" entry is absent the handler itself raises
KeyError, which escapes. -/
def show_response (r : Response) : Except PyExc Unit :=
  match show_response_try r with
  | .ok () => .ok ()
  | .error .keyError =>
    match r.type? with
    | none => .error .keyError
    | some t => .error (.runtimeError t)
  | .error e => .error e

/-! ## Text input conversion (showmehow.py lines 161-169) -/

/-- showmehow.py lines 161-169, `handle_user_input_text`: strip the raw
text; a non-empty result is the converted submission value, an empty
result means the input is rejected (`None`). -/
def handle_user_input_text (text : String) : Option String :=
  let converted := py_strip text
  if converted.length ≠ 0 then some converted else none

/-! ## Data model: lessons, tasks, effects (lessons.json shape) -/

/-- A side-effect descriptor: a kind tag (`"event"` in the shipped content)
and a value forwarded to the coding game service. -/
structure SideEffect where
  type : String
  value : String
deriving DecidableEq

/-- An effect descriptor, as the Python dict accessed in
`handle_attempt_lesson_remote`: `"reply"` is read with a plain subscript
(KeyError when absent, hence an `Option` consulted through `pyDictGet`),
while `"move_to"`, `"completes_lesson"` and `"side_effects"` are read with
`.get` and a default. -/
structure EffectDesc where
  reply : Option String
  move_to : Option String
  completes_lesson : Option Bool
  side_effects : Option (List SideEffect)
deriving DecidableEq

/-- A task descriptor: the instructional text under `"task"` and the
result-keyed `"effects"` mapping, modelled as an association list. -/
structure TaskDesc where
  task : String
  effects : List (String × EffectDesc)
deriving DecidableEq

/-- A lesson entry of lessons.json: `"name"`, `"desc"`, `"entry"`,
`"level"` and the `"practice"` mapping from task name to descriptor. -/
structure Lesson where
  name : String
  desc : String
  entry : String
  level : String
  practice : List (String × TaskDesc)
deriving DecidableEq

/-- Python dict lookup on an association list (first binding wins). -/
def assocGet {α : Type} (l : List (String × α)) (k : String) : Option α :=
  (l.find? (fun p => p.1 == k)).map (fun p => p.2)

/-- Subscripting a dict entry modelled as an `Option`: absence raises
KeyError. -/
def pyDictGet {α : Type} : Option α → Except PyExc α
  | some v => .ok v
  | none => .error .keyError

/-- Python `assert`: raise AssertionError when the condition fails. -/
def pyAssert (c : Prop) [Decidable c] : Except PyExc Unit :=
  if c then .ok () else .error .assertionError

/-- showmehow.py lines 176-178, `find_task_json`:
`[l for l in json_file if l["name"] == lesson][0]["practice"][task]`.
An empty filter result raises IndexError; a missing practice entry raises
KeyError. -/
def find_task_json (json_file : List Lesson) (lesson task : String) : Except PyExc TaskDesc :=
  match json_file.filter (fun l => l.name == lesson) with
  | [] => .error .indexError
  | l :: _ =>
    match assocGet l.practice task with
    | none => .error .keyError
    | some td => .ok td

/-! ## Side-effect dispatch (showmehow.py lines 181-199) -/

/-- showmehow.py lines 181-190, `_run_event_side_effect`: the call outcome
is inspected under `except GLib.Error`; the handler tests
`error.matches("coding-game-service", 2)` and does `pass` when it matches.
There is no `else` branch raising the error again, so a GLib error that
does not match is swallowed exactly like one that does. -/
def run_event_side_effect (callResult : CallOutcome) : Except PyExc Unit :=
  match callResult with
  | .ok => .ok ()
  | .err domain code =>
    if domain = "coding-game-service" ∧ code = 2 then .ok () else .ok ()

/-- Trace of the observable actions the state machine performs. -/
inductive TraceEvent
  | renderResponse (r : Response)
  | renderScrolled (text : String)
  | externalEvent (value : String)
  | fetchDescription (lesson task : String)
  | promptInput
  | loopQuit
deriving DecidableEq

/-- showmehow.py lines 192-199, `dispatch_side_effect`: look the kind tag
up in `_SIDE_EFFECT_DISPATCH` (KeyError when it is not `"event"`) and run
the handler; `cgs` gives the outcome of `call_external_event_sync` for a
given event value.  Returns the dispatch events performed. -/
def dispatch_side_effect (cgs : String → CallOutcome) (effect : SideEffect) :
    Except PyExc (List TraceEvent) :=
  if effect.type = "event" then
    match run_event_side_effect (cgs effect.value) with
    | .ok () => .ok [.externalEvent effect.value]
    | .error e => .error e
  else .error .keyError

/-- Dispatch a list of side effects in order, stopping at the first raised
exception (showmehow.py lines 345-346). -/
def dispatch_all (cgs : String → CallOutcome) : List SideEffect → Except PyExc (List TraceEvent)
  | [] => .ok []
  | e :: es =>
    match dispatch_side_effect cgs e with
    | .error err => .error err
    | .ok ev =>
      match dispatch_all cgs es with
      | .error err => .error err
      | .ok rest => .ok (ev ++ rest)

/-- Render a list of responses in order with `show_response`, stopping at
the first raised exception (showmehow.py lines 336-337). -/
def render_responses : List Response → Except PyExc (List TraceEvent)
  | [] => .ok []
  | r :: rs =>
    match show_response r with
    | .error e => .error e
    | .ok () =>
      match render_responses rs with
      | .error e => .error e
      | .ok rest => .ok (.renderResponse r :: rest)

/-! ## The practice-task state machine (showmehow.py lines 202-397) -/

/-- The mutable fields of `PracticeTaskStateMachine` that the embedded
transitions read and write. -/
structure SMState where
  lesson : String
  task : String
  session : Int
  state : String
deriving DecidableEq

/-- What the machine does after a completed transition: quit the GLib main
loop, or block reading the next user input. -/
inductive EngineAction
  | quitLoop
  | awaitInput
deriving DecidableEq

/-- showmehow.py lines 317-362, `handle_attempt_lesson_remote`, given the
already-parsed attempt result (`result` key and `responses`).  Mirrors the
source order: assert the SUBMIT state, look up the effect descriptor for
the result key, compute `next_task_id` (default: current task) and
`completes_lesson` (default: false), render the responses, render the
reply, dispatch the side effects, then branch: a completing effect fires
the synthetic lesson-completed event and quits the loop; an effect keeping
the same task re-enters waiting and re-displays the input prompt; any
other effect advances the task pointer and shows the next task
description (`_show_next_task` / `handle_task_description_fetched`). -/
def handle_attempt_lesson_remote (cgs : String → CallOutcome) (lessons : List Lesson)
    (st : SMState) (result : String) (responses : List Response) :
    Except PyExc (SMState × List TraceEvent × EngineAction) :=
  match pyAssert (st.state = "submit") with
  | .error e => .error e
  | .ok () =>
    match find_task_json lessons st.lesson st.task with
    | .error e => .error e
    | .ok td =>
      match assocGet td.effects result with
      | none => .error .keyError
      | some result_desc =>
        let next_task_id := result_desc.move_to.getD st.task
        let completes_lesson := result_desc.completes_lesson.getD false
        match render_responses responses with
        | .error e => .error e
        | .ok rtrace =>
          match pyDictGet result_desc.reply with
          | .error e => .error e
          | .ok reply =>
            let side_effects := result_desc.side_effects.getD []
            match dispatch_all cgs side_effects with
            | .error e => .error e
            | .ok strace =>
              let baseTrace := rtrace ++ [TraceEvent.renderScrolled reply] ++ strace
              if completes_lesson then
                match dispatch_side_effect cgs ⟨"event", "showmehow-lesson-completed"⟩ with
                | .error e => .error e
                | .ok synth =>
                  .ok ({ st with state := "running_side_effects" },
                       baseTrace ++ synth ++ [.loopQuit], .quitLoop)
              else if next_task_id = st.task then
                .ok ({ st with state := "waiting" },
                     baseTrace ++ [.promptInput], .awaitInput)
              else
                match find_task_json lessons st.lesson next_task_id with
                | .error e => .error e
                | .ok td2 =>
                  .ok ({ st with state := "waiting", task := next_task_id },
                       baseTrace ++ [.fetchDescription st.lesson next_task_id,
                                     .renderScrolled td2.task, .promptInput],
                       .awaitInput)

/-! ## Unlocked tasks (showmehow.py lines 513-550) -/

/-- One entry of the list `get_unlocked_tasks` is written to return:
`[t, desc, entry, level]`. -/
structure UnlockedTask where
  name : String
  desc : String
  entry : String
  level : String
deriving DecidableEq

/-- The names that are in scope inside the list comprehension of
`get_unlocked_tasks`: the module-level bindings of showmehow.py (imports,
functions, classes and constants, lines 8-553) together with the local
bindings of the function and the comprehension variable.  Neither
`task_name_desc_pairs` nor `task_name_entry_pairs` is among them. -/
def showmehowModuleNames : List String :=
  ["argparse", "atexit", "errno", "itertools", "json", "os", "re",
   "readline", "sys", "textwrap", "time", "defaultdict", "namedtuple",
   "gi", "CodingGameService", "GLib", "Gio", "Showmehow", "input",
   "_PAUSECHARS", "in_blue", "print_lines_slowly",
   "print_message_slowly_and_wait", "show_wrapped_response",
   "WaitTextFunctor", "show_response_scrolled", "show_raw_response",
   "_RESPONSE_ACTIONS", "show_response", "display_input_prompt",
   "display_input", "handle_user_input_text", "_INPUT_STATE_TRANSITIONS",
   "find_task_json", "_run_event_side_effect", "_SIDE_EFFECT_DISPATCH",
   "dispatch_side_effect", "PracticeTaskStateMachine",
   "print_name_detail_pair", "show_tasks", "create_service",
   "create_coding_game_service", "noninteractive_predefined_script",
   "print_banner", "load_lessons", "UnlockedTaskDetail",
   "get_unlocked_tasks", "find_task_or_report_error", "main",
   "lessons", "task_name_detail_pairs", "settings", "t", "l"]

/-- Python name resolution: an identifier not bound in any enclosing scope
raises NameError when evaluated. -/
def resolveName (n : String) : Except PyExc Unit :=
  if n ∈ showmehowModuleNames then .ok () else .error (.nameError n)

/-- The filter of the comprehension in `get_unlocked_tasks` (line 531):
`t in task_name_desc_pairs and t in task_name_entry_pairs`.  Evaluating
the left operand resolves the name `task_name_desc_pairs` first, which is
undefined, so the filter raises NameError before any membership test; the
trailing `.ok true` is dead code recording that a successful resolution
would continue with the membership tests. -/
def unlocked_filter (t : String) : Except PyExc Bool :=
  match resolveName "task_name_desc_pairs" with
  | .error e => .error e
  | .ok () =>
    match resolveName "task_name_entry_pairs" with
    | .error e => .error e
    | .ok () =>
      let _ := t
      .ok true

/-- Python list-comprehension with a filter, where both the filter and the
element expression may raise: elements are processed left to right and the
first exception propagates. -/
def pyListComp {α β : Type} (pred : α → Except PyExc Bool) (f : α → Except PyExc β) :
    List α → Except PyExc (List β)
  | [] => .ok []
  | x :: xs =>
    match pred x with
    | .error e => .error e
    | .ok true =>
      match f x with
      | .error e => .error e
      | .ok y =>
        match pyListComp pred f xs with
        | .error e => .error e
        | .ok ys => .ok (y :: ys)
    | .ok false => pyListComp pred f xs

/-- showmehow.py lines 515-532, `get_unlocked_tasks`: build
`task_name_detail_pairs` from the lessons, read the `unlocked-lessons`
settings value (passed here as the `unlocked` argument), and run the
comprehension whose filter references the undefined names
`task_name_desc_pairs` and `task_name_entry_pairs`. -/
def get_unlocked_tasks (lessons : List Lesson) (unlocked : List String) :
    Except PyExc (List UnlockedTask) :=
  let task_name_detail_pairs :=
    lessons.map (fun l => (l.name, (l.desc, l.entry, l.level)))
  pyListComp unlocked_filter
    (fun t =>
      match assocGet task_name_detail_pairs t with
      | none => .error .keyError
      | some d => .ok ⟨t, d.1, d.2.1, d.2.2⟩)
    unlocked

/-- showmehow.py lines 535-550, `find_task_or_report_error`: pick the
first unlocked task whose name matches; when the subscript `[0]` raises
IndexError, report and return `(None, None)`. -/
def find_task_or_report_error (unlocked_tasks : List UnlockedTask) (requested_task : String) :
    Option String × Option String :=
  match unlocked_tasks.filter (fun u => u.name == requested_task) with
  | [] => (none, none)
  | u :: _ => (some u.name, some u.entry)

/-! ## User input handling (showmehow.py lines 364-397) -/

/-- Helper for `py_resplit_max1`: find the first whitespace character;
the first component is everything before it, the second is the remainder
with the maximal whitespace run removed. -/
def splitFirstWs : List Char → Option (List Char × List Char)
  | [] => none
  | c :: cs =>
    if py_isspace c then some ([], cs.dropWhile py_isspace)
    else (splitFirstWs cs).map (fun p => (c :: p.1, p.2))

/-- Python `re.split(r"\s+", user_input, maxsplit=1)` followed by the
two-element unpacking `_, requested_lesson = ...`: when the input contains
no whitespace the split yields a single element and the unpacking raises
ValueError. -/
def py_resplit_max1 (s : String) : Except PyExc (String × String) :=
  match splitFirstWs s.data with
  | none => .error .valueError
  | some (a, b) => .ok (⟨a⟩, ⟨b⟩)

/-- Result of `PracticeTaskStateMachine.handle_user_input`. -/
inductive HUIOutcome
  | quit
  | listTasksAndQuit (tasks : List UnlockedTask)
  | restartLesson (lesson task : Option String)
  | submit (value : String)
deriving DecidableEq

/-- showmehow.py lines 364-397, `PracticeTaskStateMachine.handle_user_input`:
`quit`/`exit` quit; a stripped input equal to `"showmehow"` (while the
lesson is not `"showmehow"`) lists the unlocked tasks and quits; an input
starting with `"showmehow"` (same lesson condition) re-splits it, looks
the requested lesson up among the unlocked tasks and re-initializes the
machine; every other input is submitted to the service verbatim.
`unlocked` is the `unlocked-lessons` settings value consulted by
`get_unlocked_tasks` on the showmehow paths. -/
def handle_user_input (lessons : List Lesson) (st : SMState) (unlocked : List String)
    (user_input : String) : Except PyExc HUIOutcome :=
  if user_input = "quit" ∨ user_input = "exit" then .ok .quit
  else if py_strip user_input = "showmehow" ∧ st.lesson ≠ "showmehow" then
    match get_unlocked_tasks lessons unlocked with
    | .error e => .error e
    | .ok tasks => .ok (.listTasksAndQuit tasks)
  else if py_startswith user_input "showmehow" ∧ st.lesson ≠ "showmehow" then
    match py_resplit_max1 user_input with
    | .error e => .error e
    | .ok (_, requested_lesson) =>
      match get_unlocked_tasks lessons unlocked with
      | .error e => .error e
      | .ok tasks =>
        let lt := find_task_or_report_error tasks requested_lesson
        .ok (.restartLesson lt.1 lt.2)
  else .ok (.submit user_input)

/-! ## Reload Monitor and the submit checkpoint (modelled from the spec) -/

/-- Modelled from the spec: `ReloadMonitor` is imported from `showmehow`
by src/showmehow/remindmehow.py (line 25) but is not defined anywhere
under src/.  Following spec section 4.3, the monitor counts the
"content changed" notifications its background listener has received. -/
structure ReloadMonitor where
  received : Nat
deriving DecidableEq

/-- Modelled from the spec: `Reloaded()` is non-blocking and returns true
once a notification has ever been received (sticky, never resets). -/
def Reloaded (m : ReloadMonitor) : Bool :=
  m.received != 0

/-- Modelled from the spec: the background listener records one more
received notification. -/
def receive_notification (m : ReloadMonitor) : ReloadMonitor :=
  ⟨m.received + 1⟩

/-- Result of the SUBMIT-state checkpoint: either the abort with the
"content changed" message, or the dispatched submission call. -/
inductive SubmitCheckpointResult
  | aborted (message : String)
  | dispatched (session : Int) (lesson task input : String)
deriving DecidableEq

/-- Modelled from the spec: the Engine half of the checkpoint lives in
`practice_task`, imported by src/showmehow/remindmehow.py (line 22) but
absent from src/.  Spec sections 4.4 and 5: immediately before
transmitting a submission the Engine polls `Reloaded()`; when it is true
the Engine aborts with a "content changed" message instead of dispatching
the pending submission. -/
def submit_with_reload_checkpoint (m : ReloadMonitor) (session : Int)
    (lesson task input : String) : SubmitCheckpointResult :=
  if Reloaded m then .aborted "content changed"
  else .dispatched session lesson task input

/-! ## The choice input modality (modelled from the spec) -/

/-- Modelled from the spec: no `choice`-modality code exists under src/
(the input-modality resolver belongs to the missing `practice_task`
machinery).  Spec section 4.1: display a numbered list of the ordered
choice mapping; `Convert` accepts iff the raw input parses as an integer
in [1, N]; the submission value is the choice key at that 1-based
position; otherwise the input is rejected (`none`) and the same
descriptor is re-offered. -/
def convert_choice (choices : List (String × String)) (raw : String) : Option String :=
  match py_int raw with
  | none => none
  | some n =>
    if h : 1 ≤ n ∧ n ≤ (choices.length : Int) then
      some (choices.get ⟨n.toNat - 1, by omega⟩).1
    else none

/-! ## Concrete fixtures used by witnesses and counterexamples -/

/-- Effect used for the grading result "ok": completes the lesson and
carries one content side effect. -/
def demoEffectOk : EffectDesc :=
  { reply := some "well done", move_to := none,
    completes_lesson := some true, side_effects := some [⟨"event", "ev-one"⟩] }

/-- Effect used for the grading result "fail": no move_to key, no
completes_lesson key, no side effects (plain retry). -/
def demoEffectFail : EffectDesc :=
  { reply := some "try again", move_to := none,
    completes_lesson := none, side_effects := none }

/-- Effect used for the grading result "done": no move_to key but the
completes_lesson flag set. -/
def demoEffectDone : EffectDesc :=
  { reply := some "all done", move_to := none,
    completes_lesson := some true, side_effects := none }

/-- Effect used for the grading result "move": advances to task "t2". -/
def demoEffectMove : EffectDesc :=
  { reply := some "moving on", move_to := some "t2",
    completes_lesson := none, side_effects := none }

/-- First practice task of the demo lesson. -/
def demoTask1 : TaskDesc :=
  { task := "do the thing",
    effects := [("ok", demoEffectOk), ("fail", demoEffectFail),
                ("done", demoEffectDone), ("move", demoEffectMove)] }

/-- Second practice task of the demo lesson. -/
def demoTask2 : TaskDesc :=
  { task := "the second thing", effects := [] }

/-- A demo lesson with two tasks. -/
def demoLesson : Lesson :=
  { name := "breakit", desc := "Break something", entry := "t1",
    level := "beginner", practice := [("t1", demoTask1), ("t2", demoTask2)] }

/-- The demo lessons file. -/
def demoLessons : List Lesson := [demoLesson]

/-- A coding game service whose external-event calls all succeed. -/
def cgsOk : String → CallOutcome := fun _ => .ok

/-- Machine state in SUBMIT on task "t1" of the demo lesson. -/
def demoSubmitState : SMState :=
  { lesson := "breakit", task := "t1", session := 7, state := "submit" }

/-- Machine state in WAITING on task "t1" of the demo lesson. -/
def demoWaitingState : SMState :=
  { lesson := "breakit", task := "t1", session := 7, state := "waiting" }

/-! ## Shared helper lemmas -/

/-- Because the `except GLib.Error` handler never re-raises,
`_run_event_side_effect` returns normally for every call outcome. -/
theorem run_event_side_effect_ok (c : CallOutcome) : run_event_side_effect c = .ok () := by
  cases c with
  | ok => rfl
  | err d k => simp [run_event_side_effect]

/-- Dispatching a side effect of kind `event` always succeeds and performs
exactly the one external-event call. -/
theorem dispatch_side_effect_event (cgs : String → CallOutcome) (v : String) :
    dispatch_side_effect cgs ⟨"event", v⟩ = .ok [TraceEvent.externalEvent v] := by
  simp [dispatch_side_effect, run_event_side_effect_ok]

/-- A non-empty string has non-zero length. -/
theorem length_ne_zero_of_ne_empty (s : String) (h : s ≠ "") : s.length ≠ 0 := by
  cases s with
  | mk data =>
    cases data with
    | nil => exact absurd (by decide) h
    | cons c cs => simp [String.length]

/-- Greedy filling never emits a line longer than the width, provided the
line under construction and all remaining words fit in the width. -/
theorem wrapFill_length_le (width : Nat) (ws : List String) :
    ∀ cur : String, cur.length ≤ width → (∀ w ∈ ws, w.length ≤ width) →
    ∀ line ∈ wrapFill width cur ws, line.length ≤ width := by
  induction ws with
  | nil =>
    intro cur hcur _ line hl
    simp only [wrapFill, List.mem_singleton] at hl
    exact hl ▸ hcur
  | cons w ws ih =>
    intro cur hcur hws line hl
    simp only [wrapFill] at hl
    by_cases hfit : cur.length + 1 + w.length ≤ width
    · rw [if_pos hfit] at hl
      refine ih (cur ++ " " ++ w) ?_ (fun w' hw' => hws w' (List.mem_cons_of_mem _ hw')) line hl
      have : (cur ++ " " ++ w).length = cur.length + 1 + w.length := by
        simp [String.length_append]
        decide
      omega
    · rw [if_neg hfit] at hl
      rcases List.mem_cons.mp hl with h | h
      · exact h ▸ hcur
      · exact ih w (hws w (List.mem_cons_self _ _))
          (fun w' hw' => hws w' (List.mem_cons_of_mem _ hw')) line h

/-- Wrapping a text whose words all fit in the width produces only lines
that fit in the width. -/
theorem textwrap_wrap_length_le (width : Nat) (text : String)
    (h : ∀ w ∈ splitWords text, w.length ≤ width) :
    ∀ line ∈ textwrap_wrap width text, line.length ≤ width := by
  intro line hl
  rw [textwrap_wrap] at hl
  rcases hsw : splitWords text with _ | ⟨w, ws⟩
  · rw [hsw] at hl; simp at hl
  · rw [hsw] at hl
    rw [hsw] at h
    exact wrapFill_length_le width ws w (h w (List.mem_cons_self _ _))
      (fun w' hw' => h w' (List.mem_cons_of_mem _ hw')) line hl

/-! ## Claim C1 -/

/-- Claim C1: for every practice session in state SUBMIT, if the Reload
Monitor sticky flag (`Reloaded()`) is true at the checkpoint immediately
before a submission is transmitted, the Engine aborts with a
"content changed" message and the pending submission is never dispatched
to the service.  (`ReloadMonitor` and the checkpoint are modelled from the
spec; see `submit_with_reload_checkpoint`.) -/
theorem reload_checkpoint_aborts_submission (m : ReloadMonitor) (session : Int)
    (lesson task input : String) (h : Reloaded m = true) :
    submit_with_reload_checkpoint m session lesson task input = .aborted "content changed" ∧
    ∀ s l t i, submit_with_reload_checkpoint m session lesson task input ≠
      .dispatched s l t i := by
  have hab : submit_with_reload_checkpoint m session lesson task input =
      .aborted "content changed" := by
    simp [submit_with_reload_checkpoint, h]
  exact ⟨hab, fun s l t i hc => by rw [hab] at hc; exact SubmitCheckpointResult.noConfusion hc⟩

/-- Witness for claim C1 at a monitor that has received one notification. -/
theorem reload_checkpoint_aborts_submission_witness : Reloaded ⟨1⟩ = true ∧
    submit_with_reload_checkpoint ⟨1⟩ 7 "breakit" "t1" "ls" = .aborted "content changed" :=
  ⟨by decide, (reload_checkpoint_aborts_submission ⟨1⟩ 7 "breakit" "t1" "ls" (by decide)).1⟩

/-! ## Claim C2 -/

/-- Claim C2, evaluated at failing inputs: the claim says that only the
"not interested" failure (domain "coding-game-service", code 2) is
swallowed and every other failure propagates, but the `except GLib.Error`
handler of `_run_event_side_effect` has no `else: raise` branch, so a
GLib error from a different domain (first conjunct) or with a different
code (second conjunct) is swallowed exactly like the matching one (third
conjunct): the session continues in all three cases. -/
theorem run_event_side_effect_swallows_every_glib_error :
    run_event_side_effect (.err "g-dbus-error-quark" 1) = .ok () ∧
    run_event_side_effect (.err "coding-game-service" 3) = .ok () ∧
    run_event_side_effect (.err "coding-game-service" 2) = .ok () :=
  ⟨rfl, rfl, rfl⟩

/-! ## Claim C3 -/

/-- The claim of C3, as stated, specialised to the engine in src/:
whenever `handle_user_input` submits a value, the trimmed input is
non-empty and the submitted value is exactly the trimmed string. -/
def text_conversion_claim : Prop :=
  ∀ (lessons : List Lesson) (st : SMState) (unlocked : List String) (input v : String),
    handle_user_input lessons st unlocked input = .ok (.submit v) →
    (py_strip input ≠ "" ∧ v = py_strip input)

/-- Counterexample to claim C3 as stated: on the whitespace-only input
"   " the state machine of src/ submits the raw string "   " to the
service instead of rejecting it, and the submitted value is not the
trimmed string. -/
theorem text_conversion_claim_refuted : ¬ text_conversion_claim := by
  intro h
  exact (h demoLessons demoWaitingState [] "   " "   " rfl).1 (by decide)

/-- Claim C3 (amended): the Convert function of the text and console
modalities, `handle_user_input_text`, accepts iff the trimmed input is
non-empty and returns the trimmed string; the state machine in src/,
however, never applies it: every input that is not a quit command and not
a showmehow command is submitted to the service verbatim, untrimmed,
including whitespace-only input. -/
theorem raw_input_submitted_verbatim (lessons : List Lesson) (st : SMState)
    (unlocked : List String) (input : String)
    (hq : ¬(input = "quit" ∨ input = "exit"))
    (hbare : ¬(py_strip input = "showmehow" ∧ st.lesson ≠ "showmehow"))
    (hcmd : ¬(py_startswith input "showmehow" ∧ st.lesson ≠ "showmehow")) :
    handle_user_input lessons st unlocked input = .ok (.submit input) ∧
    (py_strip input = "" → handle_user_input_text input = none) ∧
    (py_strip input ≠ "" → handle_user_input_text input = some (py_strip input)) := by
  refine ⟨?_, ?_, ?_⟩
  · simp only [handle_user_input]
    rw [if_neg hq, if_neg hbare, if_neg hcmd]
  · intro h
    simp only [handle_user_input_text, h]
    decide
  · intro h
    simp only [handle_user_input_text]
    rw [if_pos (length_ne_zero_of_ne_empty _ h)]

/-- Witness for claim C3 (amended) at the input "  ls -l  ": the machine
submits it verbatim although its trimmed form is "ls -l". -/
theorem raw_input_submitted_verbatim_witness :
    handle_user_input demoLessons demoWaitingState [] "  ls -l  " = .ok (.submit "  ls -l  ") ∧
    (py_strip "  ls -l  " = "" → handle_user_input_text "  ls -l  " = none) ∧
    (py_strip "  ls -l  " ≠ "" →
      handle_user_input_text "  ls -l  " = some (py_strip "  ls -l  ")) :=
  raw_input_submitted_verbatim demoLessons demoWaitingState [] "  ls -l  "
    (by decide) (by decide) (by decide)

/-! ## Claim C4 -/

/-- Claim C4: for every Effect whose completes-lesson flag is true, the
Engine dispatches the synthetic lesson-completed Side Effect exactly once,
after the Effect's own side effects and before the Engine reaches the
terminal DONE state (stopping the loop).  The trace equality places the
synthetic `showmehow-lesson-completed` event after the content side
effects and immediately before `loopQuit`; the count conjunct states it is
dispatched exactly once. -/
theorem completes_lesson_fires_synthetic_event_once
    (cgs : String → CallOutcome) (lessons : List Lesson) (st : SMState)
    (result : String) (responses : List Response) (td : TaskDesc)
    (ed : EffectDesc) (reply : String)
    (hstate : st.state = "submit")
    (hfind : find_task_json lessons st.lesson st.task = .ok td)
    (heff : assocGet td.effects result = some ed)
    (hcomp : ed.completes_lesson.getD false = true)
    (hreply : ed.reply = some reply)
    (hresp : render_responses responses = .ok (responses.map TraceEvent.renderResponse))
    (hsides : dispatch_all cgs (ed.side_effects.getD []) =
      .ok ((ed.side_effects.getD []).map (fun s => TraceEvent.externalEvent s.value)))
    (hno : ∀ s ∈ ed.side_effects.getD [], s.value ≠ "showmehow-lesson-completed") :
    handle_attempt_lesson_remote cgs lessons st result responses =
      .ok ({ st with state := "running_side_effects" },
           responses.map TraceEvent.renderResponse
             ++ [TraceEvent.renderScrolled reply]
             ++ (ed.side_effects.getD []).map (fun s => TraceEvent.externalEvent s.value)
             ++ [TraceEvent.externalEvent "showmehow-lesson-completed", TraceEvent.loopQuit],
           EngineAction.quitLoop) ∧
    (responses.map TraceEvent.renderResponse
       ++ [TraceEvent.renderScrolled reply]
       ++ (ed.side_effects.getD []).map (fun s => TraceEvent.externalEvent s.value)
       ++ [TraceEvent.externalEvent "showmehow-lesson-completed", TraceEvent.loopQuit]).count
      (TraceEvent.externalEvent "showmehow-lesson-completed") = 1 := by
  constructor
  · simp only [handle_attempt_lesson_remote, pyAssert, hstate, if_pos, hfind, heff, hresp,
      hreply, pyDictGet, hsides, hcomp, dispatch_side_effect_event, if_true, ite_true]
    simp [List.append_assoc]
  · rw [List.count_append, List.count_append, List.count_append]
    have h1 : (responses.map TraceEvent.renderResponse).count
        (TraceEvent.externalEvent "showmehow-lesson-completed") = 0 := by
      rw [List.count_eq_zero]
      intro hmem
      rcases List.mem_map.mp hmem with ⟨r, _, habs⟩
      exact TraceEvent.noConfusion habs
    have h2 : ((ed.side_effects.getD []).map (fun s => TraceEvent.externalEvent s.value)).count
        (TraceEvent.externalEvent "showmehow-lesson-completed") = 0 := by
      rw [List.count_eq_zero]
      intro hmem
      rcases List.mem_map.mp hmem with ⟨s, hs, habs⟩
      exact hno s hs (by injection habs)
    rw [h1, h2]
    simp

/-- Witness for claim C4 at the "ok" result of the demo lesson, whose
effect completes the lesson after one content side effect. -/
theorem completes_lesson_fires_synthetic_event_once_witness :
    handle_attempt_lesson_remote cgsOk demoLessons demoSubmitState "ok"
        [⟨some "raw", some "hi"⟩] =
      .ok ({ demoSubmitState with state := "running_side_effects" },
           [TraceEvent.renderResponse ⟨some "raw", some "hi"⟩,
            TraceEvent.renderScrolled "well done", TraceEvent.externalEvent "ev-one",
            TraceEvent.externalEvent "showmehow-lesson-completed", TraceEvent.loopQuit],
           EngineAction.quitLoop) ∧
    ([TraceEvent.renderResponse ⟨some "raw", some "hi"⟩,
      TraceEvent.renderScrolled "well done", TraceEvent.externalEvent "ev-one",
      TraceEvent.externalEvent "showmehow-lesson-completed", TraceEvent.loopQuit].count
      (TraceEvent.externalEvent "showmehow-lesson-completed") = 1) :=
  completes_lesson_fires_synthetic_event_once cgsOk demoLessons demoSubmitState "ok"
    [⟨some "raw", some "hi"⟩] demoTask1 demoEffectOk "well done"
    rfl rfl rfl rfl rfl rfl rfl (by decide)

/-! ## Claim C5 -/

/-- The claim of C5, as stated: whenever the effect looked up for the
grading result has no next-task identifier (or one equal to the current
task) and the transition returns normally, the Engine re-enters WAITING
on the same task. -/
def retry_without_move_claim : Prop :=
  ∀ (cgs : String → CallOutcome) (lessons : List Lesson) (st : SMState)
    (result : String) (responses : List Response) (td : TaskDesc) (ed : EffectDesc)
    (st2 : SMState) (tr : List TraceEvent) (act : EngineAction),
    find_task_json lessons st.lesson st.task = .ok td →
    assocGet td.effects result = some ed →
    (ed.move_to = none ∨ ed.move_to = some st.task) →
    handle_attempt_lesson_remote cgs lessons st result responses = .ok (st2, tr, act) →
    (act = EngineAction.awaitInput ∧ st2.state = "waiting" ∧ st2.task = st.task)

/-- Counterexample to claim C5 as stated: the "done" effect of the demo
lesson has no move_to key, yet because its completes-lesson flag is set
the Engine quits the loop (DONE) instead of re-entering WAITING. -/
theorem retry_without_move_claim_refuted : ¬ retry_without_move_claim := by
  intro h
  have hc := h cgsOk demoLessons demoSubmitState "done" [] demoTask1 demoEffectDone
    ({ demoSubmitState with state := "running_side_effects" })
    [TraceEvent.renderScrolled "all done",
     TraceEvent.externalEvent "showmehow-lesson-completed", TraceEvent.loopQuit]
    EngineAction.quitLoop rfl rfl (Or.inl rfl) rfl
  exact EngineAction.noConfusion hc.1

/-- Claim C5 (amended): for every grading result whose Effect has no
next-task identifier (or one equal to the current task) and whose
completes-lesson flag is not set, the Engine re-enters WAITING on the same
task, re-displaying its prompt (the trailing `promptInput` event), without
performing a fetch of the task description (no `fetchDescription` event in
the trace) and without changing the task pointer, the lesson or the
session. -/
theorem retry_reenters_waiting_same_task
    (cgs : String → CallOutcome) (lessons : List Lesson) (st : SMState)
    (result : String) (responses : List Response) (td : TaskDesc)
    (ed : EffectDesc) (reply : String)
    (hstate : st.state = "submit")
    (hfind : find_task_json lessons st.lesson st.task = .ok td)
    (heff : assocGet td.effects result = some ed)
    (hmove : ed.move_to = none ∨ ed.move_to = some st.task)
    (hcomp : ed.completes_lesson.getD false = false)
    (hreply : ed.reply = some reply)
    (hresp : render_responses responses = .ok (responses.map TraceEvent.renderResponse))
    (hsides : dispatch_all cgs (ed.side_effects.getD []) =
      .ok ((ed.side_effects.getD []).map (fun s => TraceEvent.externalEvent s.value))) :
    handle_attempt_lesson_remote cgs lessons st result responses =
      .ok ({ st with state := "waiting" },
           responses.map TraceEvent.renderResponse
             ++ [TraceEvent.renderScrolled reply]
             ++ (ed.side_effects.getD []).map (fun s => TraceEvent.externalEvent s.value)
             ++ [TraceEvent.promptInput],
           EngineAction.awaitInput) ∧
    (∀ l t, TraceEvent.fetchDescription l t ∉
      (responses.map TraceEvent.renderResponse
        ++ [TraceEvent.renderScrolled reply]
        ++ (ed.side_effects.getD []).map (fun s => TraceEvent.externalEvent s.value)
        ++ [TraceEvent.promptInput])) ∧
    ({ st with state := "waiting" } : SMState).task = st.task ∧
    ({ st with state := "waiting" } : SMState).lesson = st.lesson ∧
    ({ st with state := "waiting" } : SMState).session = st.session := by
  refine ⟨?_, ?_, rfl, rfl, rfl⟩
  · have hnext : ed.move_to.getD st.task = st.task := by
      rcases hmove with h | h <;> simp [h]
    simp only [handle_attempt_lesson_remote, pyAssert, hstate, if_pos, hfind, heff, hresp,
      hreply, pyDictGet, hsides, hcomp, hnext, ite_true, ite_false, if_neg, Bool.false_eq_true,
      not_false_eq_true]
  · intro l t hmem
    simp [List.mem_append, List.mem_map] at hmem

/-- Witness for claim C5 (amended) at the "fail" result of the demo
lesson, a plain retry effect. -/
theorem retry_reenters_waiting_same_task_witness :
    handle_attempt_lesson_remote cgsOk demoLessons demoSubmitState "fail" [] =
      .ok ({ demoSubmitState with state := "waiting" },
           [TraceEvent.renderScrolled "try again", TraceEvent.promptInput],
           EngineAction.awaitInput) :=
  (retry_reenters_waiting_same_task cgsOk demoLessons demoSubmitState "fail" []
    demoTask1 demoEffectFail "try again" rfl rfl rfl (Or.inl rfl) rfl rfl rfl rfl).1

/-! ## Claim C6 -/

/-- Claim C6: for every Input Descriptor of modality choice with N
choices, Convert accepts the raw input iff it parses as an integer in
[1, N], in which case the submission value is the choice key at that
1-based position; otherwise the input is rejected (so the same descriptor
is re-offered).  (`convert_choice` is modelled from the spec; no
choice-modality code exists under src/.) -/
theorem convert_choice_accepts_iff_in_range (choices : List (String × String)) (raw : String) :
    (py_int raw = none → convert_choice choices raw = none) ∧
    (∀ n : Int, py_int raw = some n →
      (¬(1 ≤ n ∧ n ≤ (choices.length : Int)) → convert_choice choices raw = none) ∧
      (∀ h : 1 ≤ n ∧ n ≤ (choices.length : Int),
        convert_choice choices raw = some (choices.get ⟨n.toNat - 1, by omega⟩).1)) := by
  refine ⟨?_, ?_⟩
  · intro h
    simp [convert_choice, h]
  · intro n hn
    constructor
    · intro hrange
      simp only [convert_choice, hn]
      rw [dif_neg hrange]
    · intro h
      simp only [convert_choice, hn]
      rw [dif_pos h]

/-- Witness for claim C6, the scenario with two choices: raw input "2" is
accepted and submits the second choice key, raw input "3" is rejected. -/
theorem convert_choice_accepts_iff_in_range_witness :
    convert_choice [("a", "A"), ("b", "B")] "2" = some "b" ∧
    convert_choice [("a", "A"), ("b", "B")] "3" = none :=
  ⟨(((convert_choice_accepts_iff_in_range [("a", "A"), ("b", "B")] "2").2 2
        (by decide)).2 ⟨by decide, by decide⟩).trans (by decide),
   ((convert_choice_accepts_iff_in_range [("a", "A"), ("b", "B")] "3").2 3
        (by decide)).1 (by decide)⟩

/-! ## Claim C7 -/

/-- The claim of C7, as stated: the printed output preserves the
paragraph breaks between the wrapped paragraphs, i.e. a blank line
separates consecutive wrapped paragraphs in the output. -/
def wrapped_preserves_paragraph_breaks : Prop :=
  ∀ value : String,
    show_wrapped_response value =
      List.intercalate [""] ((py_split_double_newline value).map (textwrap_wrap 68))

/-- Counterexample to claim C7 as stated: for the two-paragraph value
consisting of "a", a blank line, and "b", the printed lines are exactly
["a", "b"], with no blank line between the two paragraphs, so the
paragraph break is not preserved in the output. -/
theorem wrapped_breaks_claim_refuted : ¬ wrapped_preserves_paragraph_breaks := fun h =>
  absurd (h "a\n\nb") (by decide)

/-- Claim C7 (amended): the renderer splits the text on blank-line
paragraph boundaries and word-wraps each paragraph independently at width
68 (so no printed line exceeds the width when every word fits in it), and
the wrapped paragraphs are printed consecutively: paragraph boundaries
survive only as line breaks, with no blank line emitted between
paragraphs. -/
theorem show_wrapped_response_wraps_paragraphs_independently (value p1 p2 : String)
    (hsplit : py_split_double_newline value = [p1, p2])
    (hwords : ∀ w ∈ splitWords p1 ++ splitWords p2, w.length ≤ 68) :
    show_wrapped_response value = textwrap_wrap 68 p1 ++ textwrap_wrap 68 p2 ∧
    ∀ line ∈ show_wrapped_response value, line.length ≤ 68 := by
  have heq : show_wrapped_response value = textwrap_wrap 68 p1 ++ textwrap_wrap 68 p2 := by
    simp [show_wrapped_response, hsplit]
  refine ⟨heq, ?_⟩
  intro line hl
  rw [heq] at hl
  rcases List.mem_append.mp hl with h | h
  · exact textwrap_wrap_length_le 68 p1
      (fun w hw => hwords w (List.mem_append.mpr (Or.inl hw))) line h
  · exact textwrap_wrap_length_le 68 p2
      (fun w hw => hwords w (List.mem_append.mpr (Or.inr hw))) line h

/-- Witness for claim C7 (amended) at the two-paragraph value used by the
counterexample. -/
theorem show_wrapped_response_wraps_paragraphs_independently_witness :
    show_wrapped_response "a\n\nb" = textwrap_wrap 68 "a" ++ textwrap_wrap 68 "b" :=
  (show_wrapped_response_wraps_paragraphs_independently "a\n\nb" "a" "b"
    (by decide) (by decide)).1

/-! ## Claim C8 -/

/-- Claim C8: for every lessons list and every unlocked-lessons settings
value containing at least one element, `get_unlocked_tasks` raises a
NameError (its filter references the undefined name
task_name_desc_pairs, and would next reference the equally undefined
task_name_entry_pairs); it returns a list (the empty list) only when the
settings value is empty, because then the filter is never evaluated. -/
theorem get_unlocked_tasks_raises_name_error (lessons : List Lesson) (unlocked : List String) :
    (get_unlocked_tasks lessons [] = .ok []) ∧
    (unlocked ≠ [] →
      get_unlocked_tasks lessons unlocked = .error (.nameError "task_name_desc_pairs")) := by
  constructor
  · rfl
  · intro h
    cases unlocked with
    | nil => exact absurd rfl h
    | cons t rest => rfl

/-- Witness for claim C8 at the one-element settings value. -/
theorem get_unlocked_tasks_raises_name_error_witness : (["breakit"] ≠ ([] : List String)) ∧
    get_unlocked_tasks demoLessons ["breakit"] = .error (.nameError "task_name_desc_pairs") :=
  ⟨by decide, (get_unlocked_tasks_raises_name_error demoLessons ["breakit"]).2 (by decide)⟩

/-! ## Claim C9 -/

/-- Claim C9: `show_response` raises the RuntimeError about an unknown
response type not only when the kind tag is unrecognized (first conjunct)
but also when a response with a recognized tag lacks a "value" entry
(second conjunct); and when the response has no "type" entry at all, an
unhandled KeyError escapes instead of the RuntimeError (third conjunct).
The last conjunct records the normal path for contrast. -/
theorem show_response_error_modes (t v : String) (vo : Option String) :
    (t ∉ RESPONSE_ACTIONS → show_response ⟨some t, vo⟩ = .error (.runtimeError t)) ∧
    (t ∈ RESPONSE_ACTIONS → show_response ⟨some t, none⟩ = .error (.runtimeError t)) ∧
    (show_response ⟨none, vo⟩ = .error .keyError) ∧
    (t ∈ RESPONSE_ACTIONS → show_response ⟨some t, some v⟩ = .ok ()) := by
  refine ⟨?_, ?_, rfl, ?_⟩
  · intro h
    simp only [show_response, show_response_try]
    rw [if_neg h]
  · intro h
    simp only [show_response, show_response_try]
    rw [if_pos h]
  · intro h
    simp only [show_response, show_response_try]
    rw [if_pos h]

/-- Witness for claim C9: an unknown tag, a known tag without a value, and
a response without a type entry. -/
theorem show_response_error_modes_witness :
    show_response ⟨some "bogus", some "x"⟩ = .error (.runtimeError "bogus") ∧
    show_response ⟨some "raw", none⟩ = .error (.runtimeError "raw") ∧
    show_response ⟨none, some "x"⟩ = .error .keyError :=
  ⟨(show_response_error_modes "bogus" "x" (some "x")).1 (by decide),
   (show_response_error_modes "raw" "x" none).2.1 (by decide),
   (show_response_error_modes "x" "x" (some "x")).2.2.1⟩

/-! ## Claim C10 -/

/-- Claim C10, evaluated at the failing inputs: in WAITING on the lesson
"breakit" with the non-empty unlocked-lessons value ["breakit"], the bare
input "showmehow" raises NameError from `get_unlocked_tasks` instead of
listing the unlocked tasks and exiting, and "showmehow breakit" raises the
same NameError instead of re-initializing to the named lesson; neither
input is submitted to the grading service, but the intended listing and
re-initialization behaviour is unreachable. -/
theorem showmehow_input_raises_name_error :
    handle_user_input demoLessons demoWaitingState ["breakit"] "showmehow" =
      .error (.nameError "task_name_desc_pairs") ∧
    handle_user_input demoLessons demoWaitingState ["breakit"] "showmehow breakit" =
      .error (.nameError "task_name_desc_pairs") := ⟨rfl, rfl⟩
